import Mathlib

/-
Shallow embedding of the memorypalace application (src/main.py).

The data layer (class DB) is an SQLite database with three tables: rooms,
items and progress.  We model the database as explicit lists of records,
in rowid (insertion) order, together with the AUTOINCREMENT counters and a
logical clock supplying the CURRENT_TIMESTAMP defaults.

Two behavioural points of the source that the model reproduces exactly:

* The items table declares FOREIGN KEY(room_id) REFERENCES rooms(id)
  ON DELETE CASCADE, but the sqlite3 connection never executes
  PRAGMA foreign_keys = ON, and in Python's sqlite3 module foreign-key
  enforcement is OFF by default.  Hence DB.delete_room deletes only the
  row of the rooms table and leaves every dependent item in place.

* DB.list_items takes a mandatory room_id parameter and always runs
  SELECT ... WHERE room_id = ?.  Passing None binds SQL NULL, and the
  comparison room_id = NULL matches no row, so the result is empty;
  there is no all-items mode in this method.  (The all-items SELECT
  exists only inside practice_generator.)

random.shuffle is modelled by an injected family of reorderings
(shuffler : Nat → List Item → List Item), one application per round of the
generator; faithfulness of the randomness is expressed by the hypothesis
that each application permutes its argument, which random.shuffle always
does.
-/

namespace MemoryPalace

/-- Row of the rooms table: id, name, description. -/
structure Room where
  id : Nat
  name : String
  description : String
deriving DecidableEq, Repr

/-- Row of the items table: id, room_id, name, hint, image_path. -/
structure Item where
  id : Nat
  room_id : Nat
  name : String
  hint : String
  image_path : String
deriving DecidableEq, Repr

/-- Row of the progress table: id, item_id, seen_at, note. -/
structure ProgressEvent where
  id : Nat
  item_id : Nat
  seen_at : Nat
  note : String
deriving DecidableEq, Repr

/-- State of the SQLite database behind class DB: the three tables in rowid
order, the AUTOINCREMENT counters, and a logical clock that supplies the
monotone CURRENT_TIMESTAMP values of the progress table. -/
structure DBState where
  rooms : List Room
  items : List Item
  progress : List ProgressEvent
  next_room_id : Nat
  next_item_id : Nat
  next_progress_id : Nat
  clock : Nat
deriving DecidableEq, Repr

/-- Freshly created database (after DB._ensure_schema on a new file):
empty tables, AUTOINCREMENT counters at 1. -/
def DBState.newdb : DBState :=
  ⟨[], [], [], 1, 1, 1, 0⟩

/-- DB.add_room: INSERT INTO rooms (name, description) VALUES (?, ?).
The rooms table has a UNIQUE constraint on name, so the insert fails
(sqlite3.IntegrityError) when a room of that name already exists; this is
modelled by returning none.  On success the new row id is returned. -/
def DBState.add_room (db : DBState) (name description : String) :
    Option (DBState × Nat) :=
  if db.rooms.any (fun r => r.name == name) then none
  else some
    ({ db with
        rooms := db.rooms ++ [⟨db.next_room_id, name, description⟩],
        next_room_id := db.next_room_id + 1 },
      db.next_room_id)

/-- DB.list_rooms: SELECT id, name, description FROM rooms ORDER BY id.
The model keeps the table in id order, so this is the rooms list itself. -/
def DBState.list_rooms (db : DBState) : List Room :=
  db.rooms

/-- DB.delete_room: DELETE FROM rooms WHERE id = ?.  Only the rooms table is
touched: the ON DELETE CASCADE clause of the items table is never enforced
because the connection leaves sqlite3's foreign_keys pragma at its default
OFF, so dependent items survive the deletion. -/
def DBState.delete_room (db : DBState) (room_id : Nat) : DBState :=
  { db with rooms := db.rooms.filter (fun r => r.id != room_id) }

/-- DB.add_item: INSERT INTO items (room_id, name, hint, image_path)
VALUES (?, ?, ?, ?); returns the new row id. -/
def DBState.add_item (db : DBState) (room_id : Nat)
    (name hint image_path : String) : DBState × Nat :=
  ({ db with
      items := db.items ++ [⟨db.next_item_id, room_id, name, hint, image_path⟩],
      next_item_id := db.next_item_id + 1 },
    db.next_item_id)

/-- DB.list_items: SELECT id, name, hint, image_path FROM items
WHERE room_id = ? ORDER BY id.  The parameter is mandatory in the source;
the Option models the possible Python arguments.  Passing None binds SQL
NULL and room_id = NULL matches no row, giving the empty result. -/
def DBState.list_items (db : DBState) : Option Nat → List Item
  | none => []
  | some rid => db.items.filter (fun it => it.room_id == rid)

/-- DB.delete_item: DELETE FROM items WHERE id = ?. -/
def DBState.delete_item (db : DBState) (item_id : Nat) : DBState :=
  { db with items := db.items.filter (fun it => it.id != item_id) }

/-- DB.log_seen: INSERT INTO progress (item_id, note) VALUES (?, ?); the id
comes from AUTOINCREMENT and seen_at from CURRENT_TIMESTAMP (the logical
clock, which then advances, keeping timestamps monotone). -/
def DBState.log_seen (db : DBState) (item_id : Nat) (note : String) : DBState :=
  { db with
      progress :=
        db.progress ++ [⟨db.next_progress_id, item_id, db.clock, note⟩],
      next_progress_id := db.next_progress_id + 1,
      clock := db.clock + 1 }

/-- Item fetch at the top of practice_generator.  With rooms truthy
(a non-empty list) it runs SELECT ... FROM items WHERE room_id IN (...);
with rooms None or an empty list (both falsy for Python's `if rooms:`) it
runs the unfiltered SELECT ... FROM items, returning every stored item. -/
def fetch_items (db : DBState) : Option (List Nat) → List Item
  | none => db.items
  | some rs =>
      if rs.isEmpty then db.items
      else db.items.filter (fun it => rs.contains it.room_id)

/-- Order of one round of the generator's while-loop body:
sequence = list(items), then random.shuffle(sequence) when shuffle is set.
The shuffler argument models random.shuffle, indexed by the round number so
that each round draws independently. -/
def round_sequence (shuffle : Bool) (shuffler : Nat → List Item → List Item)
    (items : List Item) (round : Nat) : List Item :=
  if shuffle then shuffler round items else items

/-- Complete output of practice_generator with repeat=False: nothing when
the fetched item list is empty (the `if not items: return` guard), otherwise
exactly one round, after which `if not repeat: break` leaves the loop. -/
def practice_norepeat (db : DBState) (rooms : Option (List Nat))
    (shuffle : Bool) (shuffler : Nat → List Item → List Item) : List Item :=
  if fetch_items db rooms = [] then []
  else round_sequence shuffle shuffler (fetch_items db rooms) 0

/-- Output of practice_generator with repeat=True, truncated to its first r
rounds: the while-loop never breaks, so the infinite stream of yields is the
concatenation of the successive rounds, and this is the finite part of it
produced by r loop iterations.  With an empty fetch the guard
`if not items: return` fires and every truncation is empty. -/
def practice_rounds (db : DBState) (rooms : Option (List Nat))
    (shuffle : Bool) (shuffler : Nat → List Item → List Item)
    (r : Nat) : List Item :=
  if fetch_items db rooms = [] then []
  else (List.range r).flatMap
    (round_sequence shuffle shuffler (fetch_items db rooms))

/-- Signals a practice-control call communicates through message boxes and
its effect on the UI.  shown: next_practice displayed an item; exhausted:
the generator raised StopIteration (the پایان message); noActiveSession:
next_practice found no generator (the "first press start" message);
inputError is modelled from the spec's error taxonomy (InputError for a
nonexistent scope) — the source has no code path producing it. -/
inductive PracticeSignal where
  | shown : Item → PracticeSignal
  | exhausted : PracticeSignal
  | noActiveSession : PracticeSignal
  | inputError : PracticeSignal
deriving DecidableEq, Repr

/-- Session-relevant state of MemoryPalaceApp: the database, the practice
generator (None when idle; with the fixed policy shuffle=True, repeat=False
of start_practice, the generator's remaining output is a finite list), and
the text of the practice_status label.

The Python generator runs lazily (the SELECT happens at the first next),
but since start_practice immediately invokes next_practice, the fetch
happens inside start_practice either way and the eager model below agrees
with the source on every observable behaviour. -/
structure AppState where
  db : DBState
  practice_gen : Option (List Item)
  status : String
deriving DecidableEq, Repr

/-- MemoryPalaceApp.stop_practice: drops the generator and sets the status
label; touches nothing in the database. -/
def stop_practice (s : AppState) : AppState :=
  { s with practice_gen := none, status := "حالت: متوقف" }

/-- MemoryPalaceApp.next_practice.  Without a generator it only shows an
informational message (no state change).  With one, next() either raises
StopIteration — the end message is shown and stop_practice runs — or yields
an item, which is displayed, logged via db.log_seen(item_id), and named in
the status label. -/
def next_practice (s : AppState) : PracticeSignal × AppState :=
  match s.practice_gen with
  | none => (PracticeSignal.noActiveSession, s)
  | some [] => (PracticeSignal.exhausted, stop_practice s)
  | some (it :: rest) =>
      (PracticeSignal.shown it,
        { db := s.db.log_seen it.id "",
          practice_gen := some rest,
          status := "آخرین آیتم: " ++ it.name })

/-- MemoryPalaceApp.start_practice: builds the generator over the chosen
scope (the selected room, or None for all) with the fixed policy
shuffle=True, repeat=False, sets the status label, and then immediately
calls next_practice, returning its signal. -/
def start_practice (shuffler : Nat → List Item → List Item)
    (rooms : Option (List Nat)) (s : AppState) : PracticeSignal × AppState :=
  next_practice
    { s with
        practice_gen := some (practice_norepeat s.db rooms true shuffler),
        status := "حالت: در حال تمرین" }

/-- Concrete fixture: room R1 (id 1). -/
def roomR1 : Room :=
  ⟨1, "R1", ""⟩

/-- Concrete fixture: item A (id 1) in room 1. -/
def itemA : Item :=
  ⟨1, 1, "A", "hint a", ""⟩

/-- Concrete fixture: item B (id 2) in room 1. -/
def itemB : Item :=
  ⟨2, 1, "B", "hint b", ""⟩

/-- Concrete fixture: database holding room R1 with items A and B. -/
def dbW : DBState :=
  ⟨[roomR1], [itemA, itemB], [], 2, 3, 1, 0⟩

/-- Trivial deterministic stand-in for random.shuffle: the identity
reordering, a valid draw of the shuffle in every round. -/
def idShuffler : Nat → List Item → List Item :=
  fun _ l => l

/-- Concrete fixture: idle application state over dbW. -/
def appW : AppState :=
  ⟨dbW, none, "حالت: آماده"⟩

/-- Concrete fixture: mid-session application state over dbW whose generator
still holds items A and B. -/
def appGenW : AppState :=
  ⟨dbW, some [itemA, itemB], "حالت: در حال تمرین"⟩

lemma round_sequence_perm (shuffle : Bool)
    (shuffler : Nat → List Item → List Item) (items : List Item) (n : Nat)
    (hperm : ∀ m, (shuffler m items).Perm items) :
    (round_sequence shuffle shuffler items n).Perm items := by
  cases shuffle with
  | false => simp [round_sequence]
  | true => simpa [round_sequence] using hperm n

/-- C10: passing an empty list of room identifiers as the scope is falsy for
Python's `if rooms:` test, so the unfiltered SELECT runs and every stored
item is selected, exactly as when no scope is passed at all — not zero
items. -/
theorem C10_empty_scope_selects_all (db : DBState)
    (shuffle : Bool) (shuffler : Nat → List Item → List Item) :
    fetch_items db (some []) = db.items ∧
    fetch_items db (some []) = fetch_items db none ∧
    practice_norepeat db (some []) shuffle shuffler
      = practice_norepeat db none shuffle shuffler :=
  ⟨rfl, rfl, rfl⟩

/-- C8: over an empty fetched item set the generator's guard returns before
the while-loop, so even with repeat=true the output is empty however many
rounds are demanded — the sequence is immediately exhausted and never
enters an infinite empty loop. -/
theorem C8_empty_input_immediately_exhausted (db : DBState)
    (rooms : Option (List Nat)) (shuffle : Bool)
    (shuffler : Nat → List Item → List Item) (r : Nat)
    (he : fetch_items db rooms = []) :
    practice_rounds db rooms shuffle shuffler r = [] ∧
    practice_norepeat db rooms shuffle shuffler = [] := by
  constructor
  · simp [practice_rounds, he]
  · simp [practice_norepeat, he]

theorem C8_witness :
    practice_rounds DBState.newdb none true idShuffler 5 = [] ∧
    practice_norepeat DBState.newdb none true idShuffler = [] :=
  C8_empty_input_immediately_exhausted DBState.newdb none true idShuffler 5 rfl

/-- C9 counterexample: on a store holding items, list_items with the room
identifier absent (None) returns the empty list, not all stored items — the
SQL comparison room_id = NULL matches no row. -/
theorem C9_counterexample :
    DBState.list_items dbW none = [] ∧
    dbW.items ≠ [] ∧
    DBState.list_items dbW none ≠ dbW.items := by
  refine ⟨rfl, by decide, by decide⟩

/-- C9 amended: list_items requires a room identifier; with None it returns
the empty list, and with an identifier it returns exactly the stored items
of that room, in table (id) order — there is no all-items mode in this
method. -/
theorem C9_amended_list_items_semantics (db : DBState) (rid : Nat) :
    db.list_items none = [] ∧
    (db.list_items (some rid)).Sublist db.items ∧
    ∀ it : Item, it ∈ db.list_items (some rid) ↔
      it ∈ db.items ∧ it.room_id = rid := by
  refine ⟨rfl, List.filter_sublist _, ?_⟩
  intro it
  simp [DBState.list_items]

/-- C1: with repeat=False the generator runs exactly one round over a
non-empty fetched item set, so consuming it to exhaustion yields exactly as
many elements as there are items, and — the store's item identifiers being
unique — each input item's identifier appears exactly once, for shuffled and
unshuffled policies alike. -/
theorem C1_norepeat_each_id_exactly_once (db : DBState)
    (rooms : Option (List Nat)) (shuffle : Bool)
    (shuffler : Nat → List Item → List Item)
    (hne : fetch_items db rooms ≠ [])
    (hperm : ∀ m, (shuffler m (fetch_items db rooms)).Perm
      (fetch_items db rooms))
    (hnodup : ((fetch_items db rooms).map Item.id).Nodup) :
    (practice_norepeat db rooms shuffle shuffler).length
      = (fetch_items db rooms).length ∧
    ∀ it ∈ fetch_items db rooms,
      ((practice_norepeat db rooms shuffle shuffler).map Item.id).count it.id
        = 1 := by
  have hp : (practice_norepeat db rooms shuffle shuffler).Perm
      (fetch_items db rooms) := by
    unfold practice_norepeat
    rw [if_neg hne]
    exact round_sequence_perm shuffle shuffler _ 0 hperm
  refine ⟨hp.length_eq, ?_⟩
  intro it hit
  have hmem : it.id ∈ (fetch_items db rooms).map Item.id :=
    List.mem_map_of_mem Item.id hit
  rw [(hp.map Item.id).count_eq it.id]
  exact List.count_eq_one_of_mem hnodup hmem

theorem C1_witness :
    (practice_norepeat dbW none true idShuffler).length
      = (fetch_items dbW none).length ∧
    ∀ it ∈ fetch_items dbW none,
      ((practice_norepeat dbW none true idShuffler).map Item.id).count it.id
        = 1 :=
  C1_norepeat_each_id_exactly_once dbW none true idShuffler
    (by decide) (fun _ => List.Perm.refl _) (by decide)

lemma practice_rounds_succ (db : DBState) (rooms : Option (List Nat))
    (shuffle : Bool) (shuffler : Nat → List Item → List Item)
    (hne : fetch_items db rooms ≠ []) (n : Nat) :
    practice_rounds db rooms shuffle shuffler (n + 1)
      = practice_rounds db rooms shuffle shuffler n
        ++ round_sequence shuffle shuffler (fetch_items db rooms) n := by
  unfold practice_rounds
  rw [if_neg hne, if_neg hne, List.range_succ, List.flatMap_append]
  simp

lemma practice_rounds_length (db : DBState) (rooms : Option (List Nat))
    (shuffle : Bool) (shuffler : Nat → List Item → List Item)
    (hne : fetch_items db rooms ≠ [])
    (hperm : ∀ m, (shuffler m (fetch_items db rooms)).Perm
      (fetch_items db rooms))
    (n : Nat) :
    (practice_rounds db rooms shuffle shuffler n).length
      = n * (fetch_items db rooms).length := by
  induction n with
  | zero => simp [practice_rounds]
  | succ k ih =>
      rw [practice_rounds_succ db rooms shuffle shuffler hne k,
        List.length_append, ih,
        (round_sequence_perm shuffle shuffler _ k hperm).length_eq]
      ring

/-- C3: with repeat=True over a non-empty fetched item set the stream of
yields is round after round without end; the prefix of n rounds has length
n·|items| (so the stream is infinite in n), each further round extends it
by one whole block, and the block of |items| pulls following position
n·|items| — the first block when n = 0, and every subsequent one — is a
permutation of the input set. -/
theorem C3_repeat_blocks_are_permutations (db : DBState)
    (rooms : Option (List Nat)) (shuffle : Bool)
    (shuffler : Nat → List Item → List Item)
    (hne : fetch_items db rooms ≠ [])
    (hperm : ∀ m, (shuffler m (fetch_items db rooms)).Perm
      (fetch_items db rooms))
    (n : Nat) :
    practice_rounds db rooms shuffle shuffler (n + 1)
      = practice_rounds db rooms shuffle shuffler n
        ++ round_sequence shuffle shuffler (fetch_items db rooms) n ∧
    (practice_rounds db rooms shuffle shuffler n).length
      = n * (fetch_items db rooms).length ∧
    ((practice_rounds db rooms shuffle shuffler (n + 1)).drop
        (n * (fetch_items db rooms).length)).Perm (fetch_items db rooms) := by
  refine ⟨practice_rounds_succ db rooms shuffle shuffler hne n,
    practice_rounds_length db rooms shuffle shuffler hne hperm n, ?_⟩
  rw [practice_rounds_succ db rooms shuffle shuffler hne n,
    ← practice_rounds_length db rooms shuffle shuffler hne hperm n,
    List.drop_left]
  exact round_sequence_perm shuffle shuffler _ n hperm

theorem C3_witness :
    practice_rounds dbW none true idShuffler 2
      = practice_rounds dbW none true idShuffler 1
        ++ round_sequence true idShuffler (fetch_items dbW none) 1 ∧
    (practice_rounds dbW none true idShuffler 1).length
      = 1 * (fetch_items dbW none).length ∧
    ((practice_rounds dbW none true idShuffler 2).drop
        (1 * (fetch_items dbW none).length)).Perm (fetch_items dbW none) :=
  C3_repeat_blocks_are_permutations dbW none true idShuffler
    (by decide) (fun _ => List.Perm.refl _) 1

/-- C6: next_practice on an idle controller (practice_gen is None — never
started, stopped, or collapsed after exhaustion) only shows the
"press start first" message: it signals noActiveSession and returns the
state unchanged, so nothing is written to the store. -/
theorem C6_idle_advance_noop (s : AppState) (h : s.practice_gen = none) :
    next_practice s = (PracticeSignal.noActiveSession, s) := by
  unfold next_practice
  rw [h]

theorem C6_witness :
    next_practice appW = (PracticeSignal.noActiveSession, appW) :=
  C6_idle_advance_noop appW rfl

/-- C4: whenever next_practice succeeds in returning an item, the state it
produces extends the progress table by exactly one new ProgressEvent, and
that event's item_id is the identifier of the very item returned. -/
theorem C4_advance_logs_exactly_one (s : AppState) (it : Item)
    (s' : AppState)
    (h : next_practice s = (PracticeSignal.shown it, s')) :
    ∃ e : ProgressEvent, e.item_id = it.id ∧
      s'.db.progress = s.db.progress ++ [e] := by
  unfold next_practice at h
  cases hg : s.practice_gen with
  | none =>
      rw [hg] at h
      simp at h
  | some gen =>
      cases gen with
      | nil =>
          rw [hg] at h
          simp at h
      | cons x rest =>
          rw [hg] at h
          simp at h
          obtain ⟨hx, hs⟩ := h
          subst hx
          refine ⟨⟨s.db.next_progress_id, x.id, s.db.clock, ""⟩, rfl, ?_⟩
          rw [← hs]
          simp [DBState.log_seen]

theorem C4_witness :
    ∃ e : ProgressEvent, e.item_id = itemA.id ∧
      ((next_practice appGenW).2).db.progress
        = appGenW.db.progress ++ [e] :=
  C4_advance_logs_exactly_one appGenW itemA (next_practice appGenW).2 rfl

/-- C5 counterexample: start_practice ends by invoking next_practice itself,
so on a store with items, immediately after start returns — before any
caller-issued advance — one item has already been pulled and one
ProgressEvent already written, contradicting the claim that start does not
advance. -/
theorem C5_counterexample :
    appW.db.progress = [] ∧
    (start_practice idShuffler none appW).1 = PracticeSignal.shown itemA ∧
    ((start_practice idShuffler none appW).2).db.progress.length = 1 := by
  refine ⟨rfl, rfl, rfl⟩

/-- C5 amended: start_practice constructs the Sequencer (shuffle=True,
repeat=False) and transitions to Active, but then immediately invokes the
advance itself as a built-in convenience: on a non-empty scope, by the time
start returns the first item has been pulled and returned, the session holds
the remaining items, and exactly one ProgressEvent for that first item has
been written. -/
theorem C5_amended_start_advances_once
    (shuffler : Nat → List Item → List Item)
    (rooms : Option (List Nat)) (s : AppState)
    (hne : fetch_items s.db rooms ≠ [])
    (hperm : ∀ m, (shuffler m (fetch_items s.db rooms)).Perm
      (fetch_items s.db rooms)) :
    ∃ it rest,
      (start_practice shuffler rooms s).1 = PracticeSignal.shown it ∧
      (start_practice shuffler rooms s).2.practice_gen = some rest ∧
      ∃ e : ProgressEvent, e.item_id = it.id ∧
        (start_practice shuffler rooms s).2.db.progress
          = s.db.progress ++ [e] := by
  have hpn : (practice_norepeat s.db rooms true shuffler).Perm
      (fetch_items s.db rooms) := by
    unfold practice_norepeat
    rw [if_neg hne]
    exact round_sequence_perm true shuffler _ 0 hperm
  have hne' : practice_norepeat s.db rooms true shuffler ≠ [] := by
    intro h0
    apply hne
    rw [← List.length_eq_zero, ← hpn.length_eq, h0]
    rfl
  obtain ⟨it, rest, hcons⟩ := List.exists_cons_of_ne_nil hne'
  refine ⟨it, rest, ?_, ?_,
    ⟨⟨s.db.next_progress_id, it.id, s.db.clock, ""⟩, rfl, ?_⟩⟩
  · simp [start_practice, next_practice, hcons]
  · simp [start_practice, next_practice, hcons]
  · simp [start_practice, next_practice, hcons, DBState.log_seen]

theorem C5_amended_witness :
    ∃ it rest,
      (start_practice idShuffler none appW).1 = PracticeSignal.shown it ∧
      (start_practice idShuffler none appW).2.practice_gen = some rest ∧
      ∃ e : ProgressEvent, e.item_id = it.id ∧
        (start_practice idShuffler none appW).2.db.progress
          = appW.db.progress ++ [e] :=
  C5_amended_start_advances_once idShuffler none appW
    (by decide) (fun _ => List.Perm.refl _)

/-- C7 counterexample: room 99 does not exist in the store, yet starting a
practice scoped to it yields the exhaustion signal — the same signal as an
empty room — and not the InputError the claim demands; no code path rejects
an unknown scope. -/
theorem C7_counterexample :
    (∀ r ∈ appW.db.rooms, r.id ≠ 99) ∧
    (start_practice idShuffler (some [99]) appW).1
      = PracticeSignal.exhausted ∧
    (start_practice idShuffler (some [99]) appW).1
      ≠ PracticeSignal.inputError := by
  refine ⟨by decide, rfl, by decide⟩

/-- C7 amended: a scope identifier referenced by no stored item — in
particular a nonexistent Room in a store without orphaned items — is not
rejected: the fetch resolves to zero items, the advance built into start
observes exhaustion at once, the caller receives the SequenceExhausted
signal rather than an InputError, and the controller collapses to Idle with
the store untouched. -/
theorem C7_amended_unknown_scope_exhausts
    (shuffler : Nat → List Item → List Item) (rid : Nat) (s : AppState)
    (hno : ∀ it ∈ s.db.items, it.room_id ≠ rid) :
    (start_practice shuffler (some [rid]) s).1 = PracticeSignal.exhausted ∧
    (start_practice shuffler (some [rid]) s).2.practice_gen = none ∧
    (start_practice shuffler (some [rid]) s).2.db = s.db := by
  have hf : fetch_items s.db (some [rid]) = [] := by
    have hall : ∀ it ∈ s.db.items, ¬ ([rid].contains it.room_id = true) := by
      intro it hit
      simp [hno it hit]
    simpa [fetch_items] using List.filter_eq_nil_iff.mpr hall
  have hgen : practice_norepeat s.db (some [rid]) true shuffler = [] := by
    simp [practice_norepeat, hf]
  refine ⟨?_, ?_, ?_⟩ <;>
    simp [start_practice, next_practice, hgen, stop_practice]

theorem C7_amended_witness :
    (start_practice idShuffler (some [99]) appW).1
      = PracticeSignal.exhausted ∧
    (start_practice idShuffler (some [99]) appW).2.practice_gen = none ∧
    (start_practice idShuffler (some [99]) appW).2.db = appW.db :=
  C7_amended_unknown_scope_exhausts idShuffler 99 appW (by decide)

/-- C2: evaluation of the cascade-deletion claim at its failing input.
Deleting room 1 from a store where room 1 holds items A and B removes only
the room row: both items survive in the items table, each still referencing
the now-nonexistent room 1, and the unfiltered item fetch still lists them —
ON DELETE CASCADE is declared in the schema but never enforced because the
sqlite3 connection leaves foreign_keys OFF. -/
theorem C2_delete_room_leaves_orphans :
    (dbW.delete_room 1).rooms = [] ∧
    (dbW.delete_room 1).items = [itemA, itemB] ∧
    itemA.room_id = 1 ∧ itemB.room_id = 1 ∧
    (∀ r ∈ (dbW.delete_room 1).rooms, r.id ≠ 1) ∧
    itemA ∈ fetch_items (dbW.delete_room 1) none := by
  refine ⟨rfl, rfl, rfl, rfl, by decide, by decide⟩

end MemoryPalace
